import Mathlib

set_option maxRecDepth 10000

/-!
Verification development for the lock-contention profiler and CPU-usage
timeline analyzer in chia/util/profiler.py.

Modelling conventions:
* Clock readings and durations (Python floats from time.time) are modelled as
  exact rationals; machine floating point rounding is outside the model.
* Python strings are modelled as Lean strings; the helpers below reproduce the
  behaviour of str.split (whitespace mode, with and without maxsplit), the
  substring membership operator, float() on plain decimal literals, and the
  printf style formats %d and %05d used by the source.
* Fallible Python operations (assert, float(), indexing, division by zero,
  opening a missing file, unpickling a malformed file) are modelled in the
  Except monad over PyErr.
-/

/-- Python exception kinds that the modelled code can raise. -/
inductive PyErr where
  | assertionError
  | valueError
  | indexError
  | zeroDivision
  | fileNotFound
  | parseError
  | typeError
deriving DecidableEq, Repr

/-- Boolean contiguous-sublist test: models the Python substring operator
`pat in s` after both sides are converted to character lists. -/
def listIsInfixB (pat : List Char) : List Char → Bool
  | [] => List.isPrefixOf pat []
  | c :: cs => List.isPrefixOf pat (c :: cs) || listIsInfixB pat cs

/-- Python `pat in s` on strings. -/
def substrB (s pat : String) : Bool := listIsInfixB pat.toList s.toList

/-- Python truthiness of a string: nonempty strings are truthy. -/
def pyTruthyStr (s : String) : Bool := s ≠ ""

/-- Helper for `str.split()` with no separator: accumulate the current word
(reversed) and emit it at each whitespace run or at the end. -/
def pySplitAllAux : List Char → List Char → List (List Char)
  | [], acc => if acc.isEmpty then [] else [acc.reverse]
  | c :: cs, acc =>
    if c.isWhitespace then
      if acc.isEmpty then pySplitAllAux cs []
      else acc.reverse :: pySplitAllAux cs []
    else pySplitAllAux cs (c :: acc)

/-- Python `s.split()`: split on runs of whitespace, dropping empty fields. -/
def pySplitAll (s : List Char) : List (List Char) := pySplitAllAux s []

/-- Helper for `str.split(None, maxsplit)`: once the split budget reaches zero
and a new word starts, the rest of the string is kept verbatim as the final
field, exactly as CPython does. -/
def pySplitMaxAux : List Char → Nat → List Char → List (List Char)
  | [], _, acc => if acc.isEmpty then [] else [acc.reverse]
  | c :: cs, m, acc =>
    if acc.isEmpty then
      if c.isWhitespace then pySplitMaxAux cs m []
      else if m = 0 then [c :: cs]
      else pySplitMaxAux cs m [c]
    else
      if c.isWhitespace then acc.reverse :: pySplitMaxAux cs (m - 1) []
      else pySplitMaxAux cs m (c :: acc)

/-- Python `s.split(None, m)`. -/
def pySplitMax (s : List Char) (m : Nat) : List (List Char) := pySplitMaxAux s m []

/-- Python negative indexing `xs[-2]`; raises IndexError (here: none) when the
list has fewer than two elements. -/
def pyIdxNeg2 {α : Type} (xs : List α) : Option α :=
  if 2 ≤ xs.length then xs.get? (xs.length - 2) else none

/-- Accumulate the value of a digit string; none if a non-digit appears. -/
def decDigitsValAux : List Char → Nat → Option Nat
  | [], acc => some acc
  | c :: cs, acc =>
    if c.isDigit then decDigitsValAux cs (10 * acc + (c.toNat - 48)) else none

/-- Python `float()` restricted to the plain decimal literals (optional sign,
digits, optional fraction) that occur in pstats output; other inputs raise
ValueError (here: none). -/
def pyFloatCore (t : List Char) : Option ℚ :=
  let intPart := t.takeWhile (fun c => c.isDigit)
  let rest := t.dropWhile (fun c => c.isDigit)
  match rest with
  | [] =>
    if intPart.isEmpty then none
    else (decDigitsValAux intPart 0).map (fun n => (n : ℚ))
  | c :: fracPart =>
    if c = '.' then
      if intPart.isEmpty && fracPart.isEmpty then none
      else
        match decDigitsValAux intPart 0, decDigitsValAux fracPart 0 with
        | some ip, some fp =>
          some ((ip : ℚ) + (fp : ℚ) / ((10 : ℚ) ^ fracPart.length))
        | _, _ => none
    else none

/-- Python `float()` on a token, handling a leading sign. -/
def pyFloat : List Char → Option ℚ
  | [] => none
  | c :: t =>
    if c = '-' then (pyFloatCore t).map (fun q => -q)
    else if c = '+' then pyFloatCore t
    else pyFloatCore (c :: t)

/-- Left-pad a numeral string with zeros up to the given width. -/
def padZeros (s : String) (w : Nat) : String :=
  if w ≤ s.length then s else String.mk (List.replicate (w - s.length) '0') ++ s

/-- Python `"%05d" % i`: width five, zero filled after the sign. -/
def pyFmt05d (i : Int) : String :=
  if i < 0 then "-" ++ padZeros (toString (-i)) 4 else padZeros (toString i) 5

/-- The snapshot file name `"slot-%05d.profile" % i` used by both the sampler
(profile_task, line 39) and the analyzer (lines 121 and 184). -/
def slotFileName (i : Int) : String := "slot-" ++ pyFmt05d i ++ ".profile"

/-- Python `range(first, last + 1)` over integers, as a list. -/
def rangeIncl (first last : Int) : List Int :=
  (List.range (last + 1 - first).toNat).map (fun k => first + k)

/-- The color classification of analyze_cpu_usage lines 154 to 165. -/
inductive ColorTier where
  | red
  | magenta
  | yellow
  | bright
  | green
  | neutral
deriving DecidableEq, Repr

/-- One rendered timeline line (the print at lines 168 to 171): the slot
counter, the percent, its color classification and the quantized bar length
`int(percent // 2)`. -/
structure OutLine where
  counter : Nat
  percent : ℚ
  color : ColorTier
  quantized : Int
deriving DecidableEq, Repr

/-- Color selection from lines 154 to 165. -/
def colorOf (percent : ℚ) : ColorTier :=
  if percent > 90 then ColorTier.red
  else if percent > 80 then ColorTier.magenta
  else if percent > 70 then ColorTier.yellow
  else if percent > 60 then ColorTier.bright
  else if percent < 10 then ColorTier.green
  else ColorTier.neutral

/-- The line printed for one slot (lines 167 to 171). -/
def renderedLine (counter : Nat) (percent : ℚ) : OutLine :=
  ⟨counter, percent, colorOf percent, Int.floor (percent / 2)⟩

/-- A single quote character, kept out of string literals. -/
def pyQuote : String := (Char.ofNat 39).toString

/-- The idle marker searched for at line 145 of the source. -/
def epollMarker : String :=
  "\x7bmethod " ++ pyQuote ++ "poll" ++ pyQuote ++ " of " ++ pyQuote ++
    "select.epoll" ++ pyQuote ++ " objects\x7d"

/-- The condition of line 134 of the source, Python truthiness included: the
third operand of the chained `and` is the literal string " seconds", not a
membership test, so it contributes its truthiness as a nonempty string. -/
def totalLineCond (line : String) : Bool :=
  substrB line " function calls " && substrB line " in " && pyTruthyStr " seconds"

/-- The per-line loop of analyze_cpu_usage (lines 132 to 147), threading the
`total` and `sleep` accumulators and raising in the Except monad exactly where
Python would raise (assert, negative indexing, float parsing). -/
def processSlotLines : List String → ℚ → ℚ → Except PyErr (ℚ × ℚ)
  | [], total, sleep => Except.ok (total, sleep)
  | line :: rest, total, sleep =>
    if totalLineCond line then
      if total = 0 then
        match pyIdxNeg2 (pySplitAll line.toList) with
        | none => Except.error PyErr.indexError
        | some tok =>
          match pyFloat tok with
          | none => Except.error PyErr.valueError
          | some t => processSlotLines rest t sleep
      else Except.error PyErr.assertionError
    else
      let columns := pySplitMax line.toList 5
      if columns.length < 6 ∨ columns.getD 0 [] = "ncalls".toList then
        processSlotLines rest total sleep
      else if listIsInfixB epollMarker.toList (columns.getD 5 []) then
        match pyFloat (columns.getD 3 []) with
        | none => Except.error PyErr.valueError
        | some v => processSlotLines rest total (sleep + v)
      else processSlotLines rest total sleep

/-- The percent computation of lines 149 to 152.  When the epsilon test fails
and `total` is zero, Python raises ZeroDivisionError at line 152. -/
def computePercent (total sleep : ℚ) : Except PyErr ℚ :=
  if sleep < 1 / 1000000 then Except.ok 100
  else if total = 0 then Except.error PyErr.zeroDivision
  else Except.ok (100 * (total - sleep) / total)

/-- One slot file of the snapshot store, as the analyzer sees it: absent
(pstats.Stats raises on the missing path), present but unreadable by pstats,
or readable with the given print_stats output lines.  The pstats printing
machinery itself is an external collaborator; a good slot is modelled by the
text it produces. -/
inductive SlotFile where
  | missing
  | malformed
  | good (lines : List String)
deriving DecidableEq, Repr

/-- The body of the analyzer loop for one slot (lines 120 to 171): load the
file, scan its lines, compute the percent, render one output line. -/
def processSlot (counter : Nat) : SlotFile → Except PyErr OutLine
  | SlotFile.missing => Except.error PyErr.fileNotFound
  | SlotFile.malformed => Except.error PyErr.parseError
  | SlotFile.good lines =>
    match processSlotLines lines 0 0 with
    | Except.error e => Except.error e
    | Except.ok (total, sleep) =>
      match computePercent total sleep with
      | Except.error e => Except.error e
      | Except.ok percent => Except.ok (renderedLine counter percent)

/-- Boolean success test for the modelled Python computations. -/
def exOk {α : Type} : Except PyErr α → Bool
  | Except.ok _ => true
  | Except.error _ => false

/-- The analyzer while loop (lines 118 to 175): slots are processed at
increasing counters; the surrounding `except Exception` handler turns the
first raised exception, of any slot, into a clean end of the whole run, so
the output is the list of lines rendered before that point.  The store is the
list of slot files at counters 0, 1, ...; counters beyond the end of the list
are missing files. -/
def analyzeFrom : List SlotFile → Nat → List OutLine
  | [], _ => []
  | file :: rest, counter =>
    match processSlot counter file with
    | Except.error _ => []
    | Except.ok l => l :: analyzeFrom rest (counter + 1)

/-- Entry point of the timeline analysis: the loop starts at counter 0. -/
def analyze_cpu_usage (store : List SlotFile) : List OutLine := analyzeFrom store 0

/-- What one iteration of the sampler loop (profile_task, lines 33 to 41) can
encounter: the sleep completes and the write succeeds; the sleep is cancelled
(asyncio.sleep raises CancelledError); or dump_stats raises while writing. -/
inductive IterOutcome where
  | normal
  | cancelled
  | writeFail
deriving DecidableEq, Repr

/-- How the sampler task left its loop, if it did. -/
inductive TaskEnd where
  | looping
  | cancelledEnd
  | errored
deriving DecidableEq, Repr

/-- The while loop of profile_task (lines 33 to 41): each iteration sleeps,
then dumps the profile to `slot-%05d.profile % counter`, then increments the
counter.  Neither the sleep nor the write is guarded by a handler, so the
first CancelledError or write failure propagates and ends the task; the
result is the list of file names written and how the loop ended. -/
def profileTaskLoop : List IterOutcome → Nat → List String × TaskEnd
  | [], _ => ([], TaskEnd.looping)
  | o :: rest, counter =>
    match o with
    | IterOutcome.cancelled => ([], TaskEnd.cancelledEnd)
    | IterOutcome.writeFail => ([], TaskEnd.errored)
    | IterOutcome.normal =>
      let r := profileTaskLoop rest (counter + 1)
      (slotFileName (Int.ofNat counter) :: r.1, r.2)

/-- profile_task starts its counter at 0 (line 31). -/
def profile_task (outcomes : List IterOutcome) : List String × TaskEnd :=
  profileTaskLoop outcomes 0

/-- Externally visible actions of analyze_slot_range (lines 177 to 194):
printed text, the gprof2dot subprocess call, opening the png output for
writing, and the dot subprocess call. -/
inductive ExpEffect where
  | printStr (s : String)
  | runGprof2dot (args : List String)
  | openWrite (name : String)
  | runDot (args : List String)
deriving DecidableEq, Repr

/-- The validation message of line 179. -/
def rangeErrMsg : String := "ERROR: first must be <= last when specifying slot range"

/-- The output artifact name of lines 186 to 188. -/
def outputFileName (first last : Int) : String :=
  "chia-hotspot-" ++ toString first ++
    (if first < last then "-" ++ toString last else "")

/-- The snapshot paths collected at lines 182 to 184; the pathlib join is
modelled with a slash. -/
def rangeFiles (dir : String) (first last : Int) : List String :=
  (rangeIncl first last).map (fun i => dir ++ "/" ++ slotFileName i)

/-- analyze_slot_range (lines 177 to 194) as the list of its effects, in
order.  When `last < first` the function prints the validation message and
returns at line 180 before building any path or invoking any subprocess.
The model follows the success path of the two subprocess calls; their own
failures would cut the trace short but are outside the claims below. -/
def analyze_slot_range (dir : String) (first last : Int) : List ExpEffect :=
  if last < first then [ExpEffect.printStr rangeErrMsg]
  else
    [ ExpEffect.printStr ("generating call tree for slot(s) [" ++ toString first ++
        ", " ++ toString last ++ "]"),
      ExpEffect.runGprof2dot (["gprof2dot", "-f", "pstats", "-o",
        outputFileName first last ++ ".dot"] ++ rangeFiles dir first last),
      ExpEffect.openWrite (outputFileName first last ++ ".png"),
      ExpEffect.runDot ["dot", "-T", "png", outputFileName first last ++ ".dot"],
      ExpEffect.printStr ("output written to: " ++ outputFileName first last ++ ".png") ]

/-- The aggregate table of InstrumentedLock (line 56): call stack text to
(times locked, cumulative wait time, cumulative hold time). -/
abbrev ProfileTable := String → Option (Nat × ℚ × ℚ)

/-- The InstrumentedLock state (lines 45 to 63): the lock name, the transient
fields valid while some task is inside the critical section, and the
aggregate table.  In the source `profile` is a class attribute shared by all
instances; no claim below depends on that sharing, so it is carried here with
the rest of the record. -/
structure InstrumentedLock where
  name : String
  current_wait_time : Option ℚ
  current_lock_time : Option ℚ
  current_holder : Option String
  profile : ProfileTable

/-- The two advisory warnings of lines 71 to 72 and 88 to 89. -/
inductive WarnKind where
  | waited
  | held
deriving DecidableEq, Repr

/-- One emitted log.warn record with the data interpolated into its text. -/
structure Warning where
  kind : WarnKind
  lockName : String
  duration : ℚ
  holder : String
deriving DecidableEq

/-- The table update of lines 82 to 86: read the current entry, defaulting to
(0, 0, 0), then store it incremented by this acquire/release cycle. -/
def profileUpdate (tbl : ProfileTable) (k : String) (w h : ℚ) : ProfileTable :=
  fun k2 =>
    if k2 = k then
      let v := (tbl k).getD (0, 0, 0)
      some (v.1 + 1, v.2.1 + w, v.2.2 + h)
    else tbl k2

/-- The bookkeeping of __aenter__ (lines 65 to 77) after the underlying
asyncio.Lock grants entry: `start_wait` is the clock before the await,
`t1` the clock at the grant, `stack` the formatted call stack captured at
line 70.  Returns the updated lock record and the warnings logged. -/
def aenterBook (lk : InstrumentedLock) (start_wait t1 : ℚ) (stack : String) :
    InstrumentedLock × List Warning :=
  let wait := t1 - start_wait
  (⟨lk.name, some wait, some t1, some stack, lk.profile⟩,
    if wait > 1 then [⟨WarnKind.waited, lk.name, wait, stack⟩] else [])

/-- The bookkeeping of __aexit__ (lines 79 to 99) up to the delegation to the
underlying asyncio.Lock: compute the hold time, update the aggregate table,
log the hold warning if due, clear the transient fields.  When the transient
fields are unset (no matching __aenter__) the source raises TypeError on the
None arithmetic of line 81; __aenter__ always sets the three together. -/
def aexitBook (lk : InstrumentedLock) (release_time : ℚ) :
    Except PyErr (InstrumentedLock × List Warning) :=
  match lk.current_lock_time, lk.current_wait_time, lk.current_holder with
  | some lock_time, some wait, some holder =>
    let hold := release_time - lock_time
    Except.ok
      (⟨lk.name, none, none, none, profileUpdate lk.profile holder wait hold⟩,
        if hold > 2 then [⟨WarnKind.held, lk.name, hold, holder⟩] else [])
  | _, _, _ => Except.error PyErr.typeError

/-- A sequence of releases from the same call site `k`, each contributing one
(wait, hold) pair through the table update of lines 82 to 86. -/
def releasesFrom (tbl : ProfileTable) (k : String) : List (ℚ × ℚ) → ProfileTable
  | [] => tbl
  | (w, h) :: rest => releasesFrom (profileUpdate tbl k w h) k rest

/-- Where a task stands with respect to one InstrumentedLock: not interacting,
suspended in the await of asyncio.Lock acquisition (line 67), or inside the
critical section between the return of __aenter__ and the call of __aexit__. -/
inductive Phase where
  | idle
  | waiting
  | critical
deriving DecidableEq, Repr

/-- The interleaved system: `n` asyncio tasks contending for one
InstrumentedLock.  `owner` is the internal state of the underlying
asyncio.Lock (which task, if any, holds it); `lk` is the shared
InstrumentedLock record. -/
structure SysState (n : Nat) where
  phase : Fin n → Phase
  owner : Option (Fin n)
  lk : InstrumentedLock

/-- A fresh InstrumentedLock as built by __init__ (lines 58 to 63), with no
holder and an empty aggregate table. -/
def initLock (name : String) : InstrumentedLock :=
  ⟨name, none, none, none, fun _ => none⟩

/-- All tasks idle, the underlying lock free. -/
def initState (n : Nat) (name : String) : SysState n :=
  ⟨fun _ => Phase.idle, none, initLock name⟩

/-- One scheduling step of the cooperative asyncio model.  Code between
awaits runs atomically, so each constructor is one scheduling slice:
entering __aenter__ and suspending on the underlying acquisition; being
granted the underlying lock and running the rest of __aenter__ (lines 68 to
77) in the same slice; and running __aexit__ (lines 79 to 99), whose final
delegation releases the underlying lock. -/
inductive Step {n : Nat} : SysState n → SysState n → Prop where
  | callAenter (s : SysState n) (t : Fin n) :
      s.phase t = Phase.idle →
      Step s ⟨Function.update s.phase t Phase.waiting, s.owner, s.lk⟩
  | grant (s : SysState n) (t : Fin n) (start_wait t1 : ℚ) (stack : String) :
      s.phase t = Phase.waiting →
      s.owner = none →
      Step s ⟨Function.update s.phase t Phase.critical, some t,
        (aenterBook s.lk start_wait t1 stack).1⟩
  | exitCrit (s : SysState n) (t : Fin n) (release_time : ℚ)
      (st : InstrumentedLock) (ws : List Warning) :
      s.phase t = Phase.critical →
      aexitBook s.lk release_time = Except.ok (st, ws) →
      Step s ⟨Function.update s.phase t Phase.idle, none, st⟩

/-- States reachable from the initial state by scheduling steps. -/
inductive Reach {n : Nat} (name : String) : SysState n → Prop where
  | init : Reach name (initState n name)
  | step {s s2 : SysState n} : Reach name s → Step s s2 → Reach name s2

/-- The linking invariant: a task inside the critical section holds the
underlying asyncio.Lock. -/
def ownerInv {n : Nat} (s : SysState n) : Prop :=
  ∀ t, s.phase t = Phase.critical → s.owner = some t

/-- The header line of a pstats print_stats dump, as in the comment at line
135 of the source. -/
def totalLineSample : String :=
  "         304307 function calls (291692 primitive calls) in 1.031 seconds"

/-- A data row whose final column is the epoll idle marker of line 145. -/
def epollLineSample : String :=
  "      833    0.009    0.000    0.912    0.001 " ++ epollMarker

/-- A small well formed print_stats dump: header line, ncalls column header,
one ordinary data row. -/
def sampleLines : List String :=
  [ totalLineSample,
    "",
    "   Ordered by: cumulative time",
    "",
    "   ncalls  tottime  percall  cumtime  percall filename:lineno(function)",
    "        1    0.000    0.000    0.500    0.000 selectors.py:451(select)" ]

/-- A store with well formed slots 0, 1, 2, a gap at 3, and a slot at 4. -/
def sampleStoreGap : List SlotFile :=
  [ SlotFile.good sampleLines, SlotFile.good sampleLines, SlotFile.good sampleLines,
    SlotFile.missing, SlotFile.good sampleLines ]

/-- A store whose middle slot is present but unreadable. -/
def sampleStoreMalformed : List SlotFile :=
  [ SlotFile.good sampleLines, SlotFile.malformed, SlotFile.good sampleLines ]

/-- A header line whose elapsed time field reads 0.000 seconds. -/
def zeroTotalLine : String := "0 function calls in 0.000 seconds"

/-- A store whose slot 1 dump repeats the header line, so its second header
line hits the assert of line 136 with total = 1.031. -/
def assertStore : List SlotFile :=
  [ SlotFile.good sampleLines, SlotFile.good [totalLineSample, totalLineSample] ]

/-- A lock record as it stands while a holder from call site "site" is inside
the critical section: it waited 1 unit and acquired at clock 10. -/
def lkSample : InstrumentedLock :=
  ⟨"L", some 1, some 10, some "site", fun _ => none⟩

/-- The lock record aexitBook produces from lkSample at release clock 12. -/
def lkSampleExit : InstrumentedLock :=
  ⟨"L", none, none, none, profileUpdate lkSample.profile "site" 1 (12 - 10)⟩

/-- A table holding one entry for call site "site". -/
def sampleTbl : ProfileTable :=
  fun k => if k = "site" then some (3, 10, 20) else none

/-- View of an Except value as a sum, for deciding equalities of results. -/
def exceptToSum {ε α : Type} : Except ε α → ε ⊕ α
  | Except.error e => Sum.inl e
  | Except.ok a => Sum.inr a

instance {ε α : Type} [DecidableEq ε] [DecidableEq α] : DecidableEq (Except ε α) :=
  fun x y =>
    decidable_of_iff (exceptToSum x = exceptToSum y)
      (by cases x <;> cases y <;> simp [exceptToSum])

/-- Two tasks, nobody interacting with the lock yet. -/
def s0Sample : SysState 2 := initState 2 "L"

/-- Task 0 has called __aenter__ and awaits the underlying acquisition. -/
def s1Sample : SysState 2 :=
  ⟨Function.update s0Sample.phase 0 Phase.waiting, s0Sample.owner, s0Sample.lk⟩

/-- Task 0 has been granted the lock at clock 0 with no wait and is inside
the critical section. -/
def s2Sample : SysState 2 :=
  ⟨Function.update s1Sample.phase 0 Phase.critical, some 0,
    (aenterBook s1Sample.lk 0 0 "site").1⟩

theorem processSlot_counter {c : Nat} {f : SlotFile} {l : OutLine}
    (h : processSlot c f = Except.ok l) : l.counter = c := by
  cases f with
  | missing => simp [processSlot] at h
  | malformed => simp [processSlot] at h
  | good lines =>
    simp only [processSlot] at h
    cases hp : processSlotLines lines 0 0 with
    | error e => rw [hp] at h; simp at h
    | ok ts =>
      obtain ⟨total, sleep⟩ := ts
      rw [hp] at h
      dsimp only at h
      cases hc : computePercent total sleep with
      | error e => rw [hc] at h; simp at h
      | ok p =>
        rw [hc] at h
        simp at h
        subst h
        rfl

theorem analyzeFromSpec : ∀ (n : Nat) (store : List SlotFile) (c0 : Nat),
    (∀ i, i < n → exOk (processSlot (c0 + i) (store.getD i SlotFile.missing)) = true) →
    exOk (processSlot (c0 + n) (store.getD n SlotFile.missing)) = false →
    (analyzeFrom store c0).length = n ∧
    (∀ i, i < n → ∃ l, (analyzeFrom store c0).get? i = some l ∧
        processSlot (c0 + i) (store.getD i SlotFile.missing) = Except.ok l) := by
  intro n
  induction n with
  | zero =>
    intro store c0 hok hstop
    refine ⟨?_, by intro i hi; omega⟩
    cases store with
    | nil => rfl
    | cons f rest =>
      rw [List.getD_cons_zero] at hstop
      cases hp : processSlot (c0 + 0) f with
      | error e =>
        rw [Nat.add_zero] at hp
        simp [analyzeFrom, hp]
      | ok l => rw [hp] at hstop; simp [exOk] at hstop
  | succ n ih =>
    intro store c0 hok hstop
    cases store with
    | nil =>
      have h0 := hok 0 (Nat.succ_pos n)
      rw [List.getD_nil] at h0
      simp [processSlot, exOk] at h0
    | cons f rest =>
      have h0 := hok 0 (Nat.succ_pos n)
      rw [List.getD_cons_zero, Nat.add_zero] at h0
      cases hp : processSlot c0 f with
      | error e => rw [hp] at h0; simp [exOk] at h0
      | ok l =>
        have hok2 : ∀ i, i < n →
            exOk (processSlot ((c0 + 1) + i) (rest.getD i SlotFile.missing)) = true := by
          intro i hi
          have h := hok (i + 1) (by omega)
          rw [List.getD_cons_succ] at h
          have e : c0 + (i + 1) = (c0 + 1) + i := by omega
          rwa [e] at h
        have hstop2 : exOk (processSlot ((c0 + 1) + n) (rest.getD n SlotFile.missing)) = false := by
          have e : c0 + (n + 1) = (c0 + 1) + n := by omega
          rw [e] at hstop
          rwa [List.getD_cons_succ] at hstop
        have hrec := ih rest (c0 + 1) hok2 hstop2
        have hun : analyzeFrom (f :: rest) c0 = l :: analyzeFrom rest (c0 + 1) := by
          simp [analyzeFrom, hp]
        refine ⟨by rw [hun]; simp [hrec.1], ?_⟩
        intro i hi
        cases i with
        | zero =>
          refine ⟨l, ?_, ?_⟩
          · rw [hun, List.get?_cons_zero]
          · rw [List.getD_cons_zero, Nat.add_zero]; exact hp
        | succ j =>
          obtain ⟨l2, hg, hp2⟩ := hrec.2 j (by omega)
          refine ⟨l2, ?_, ?_⟩
          · rw [hun, List.get?_cons_succ]; exact hg
          · rw [List.getD_cons_succ]
            have e : c0 + (j + 1) = (c0 + 1) + j := by omega
            rw [e]; exact hp2

/-- C3: the Timeline Analyzer visits snapshots in increasing sequence number
order starting at 0, producing one output line per visited snapshot, and
stops at the first sequence number whose snapshot file is missing; the
wrapping handler of line 174 turns the raised exception into a clean end of
the run rather than an error to the caller, so the result is exactly the
lines of the slots before the gap.  The hypotheses say that every slot below
n processes without an exception and that slot n is missing. -/
theorem c3_analyzer_stops_at_first_missing (store : List SlotFile) (n : Nat)
    (hok : ∀ i, i < n → exOk (processSlot i (store.getD i SlotFile.missing)) = true)
    (hmiss : store.getD n SlotFile.missing = SlotFile.missing) :
    (analyze_cpu_usage store).length = n ∧
    (∀ i, i < n → ∃ l, (analyze_cpu_usage store).get? i = some l ∧ l.counter = i ∧
        processSlot i (store.getD i SlotFile.missing) = Except.ok l) := by
  have h := analyzeFromSpec n store 0
    (by intro i hi; rw [Nat.zero_add]; exact hok i hi)
    (by rw [Nat.zero_add, hmiss]; rfl)
  unfold analyze_cpu_usage
  refine ⟨h.1, ?_⟩
  intro i hi
  obtain ⟨l, hg, hp⟩ := h.2 i hi
  rw [Nat.zero_add] at hp
  exact ⟨l, hg, processSlot_counter hp, hp⟩

/-- Witness for C3 on the store with slots 0, 1, 2 and 4 and a gap at 3:
exactly three lines come out, one per slot below the gap. -/
theorem c3_witness :
    (analyze_cpu_usage sampleStoreGap).length = 3 ∧
    (∀ i, i < 3 → ∃ l, (analyze_cpu_usage sampleStoreGap).get? i = some l ∧ l.counter = i ∧
        processSlot i (sampleStoreGap.getD i SlotFile.missing) = Except.ok l) :=
  c3_analyzer_stops_at_first_missing sampleStoreGap 3
    (by with_unfolding_all decide) (by rfl)

/-- C6 counterexample: in the store whose slot 1 file is malformed while
slots 0 and 2 are well formed, the run produces only the slot 0 line: slot 2
is never rendered and no line for the malformed slot appears, because the
handler at line 174 wraps the whole while loop, so the exception raised while
loading slot 1 ends the entire run instead of skipping that slot. -/
theorem c6_counterexample :
    (analyze_cpu_usage sampleStoreMalformed).length = 1 ∧
    (∀ l ∈ analyze_cpu_usage sampleStoreMalformed, l.counter ≠ 2) := by
  with_unfolding_all decide

/-- C6 amended: when one snapshot in the contiguous sequence is malformed,
the Timeline Analyzer terminates the entire run at that slot (the wrapping
handler of line 174 prints the exception) and produces output only for the
slots before it, rather than skipping the malformed slot and continuing. -/
theorem c6_amended_malformed_slot_aborts_run (store : List SlotFile) (n : Nat)
    (hok : ∀ i, i < n → exOk (processSlot i (store.getD i SlotFile.missing)) = true)
    (hbad : store.getD n SlotFile.missing = SlotFile.malformed) :
    (analyze_cpu_usage store).length = n ∧
    (∀ i, i < n → ∃ l, (analyze_cpu_usage store).get? i = some l ∧ l.counter = i ∧
        processSlot i (store.getD i SlotFile.missing) = Except.ok l) := by
  have h := analyzeFromSpec n store 0
    (by intro i hi; rw [Nat.zero_add]; exact hok i hi)
    (by rw [Nat.zero_add, hbad]; rfl)
  unfold analyze_cpu_usage
  refine ⟨h.1, ?_⟩
  intro i hi
  obtain ⟨l, hg, hp⟩ := h.2 i hi
  rw [Nat.zero_add] at hp
  exact ⟨l, hg, processSlot_counter hp, hp⟩

/-- Witness for the amended C6: the malformed slot 1 cuts the run to the
single line of slot 0. -/
theorem c6_amended_witness :
    (analyze_cpu_usage sampleStoreMalformed).length = 1 ∧
    (∀ i, i < 1 → ∃ l, (analyze_cpu_usage sampleStoreMalformed).get? i = some l ∧ l.counter = i ∧
        processSlot i (sampleStoreMalformed.getD i SlotFile.missing) = Except.ok l) :=
  c6_amended_malformed_slot_aborts_run sampleStoreMalformed 1
    (by with_unfolding_all decide) (by rfl)

/-- C2: for every snapshot whose percent computation reports a value, the
value is 100 when the idle time is below the epsilon of line 149, and
100 * (total - idle) / total otherwise; total 1.0 with idle 0.9 reports 10,
and idle 0.0 reports 100. -/
theorem c2_busy_percent_formula :
    (∀ total sleep p, computePercent total sleep = Except.ok p →
      (sleep < 1 / 1000000 → p = 100) ∧
      (¬ sleep < 1 / 1000000 → p = 100 * (total - sleep) / total)) ∧
    computePercent 1 (9 / 10) = Except.ok 10 ∧
    computePercent 1 0 = Except.ok 100 := by
  refine ⟨?_, by with_unfolding_all decide, by with_unfolding_all decide⟩
  intro total sleep p h
  constructor
  · intro hlt
    rw [computePercent, if_pos hlt] at h
    exact (Except.ok.inj h).symm
  · intro hge
    rw [computePercent, if_neg hge] at h
    by_cases hz : total = 0
    · rw [if_pos hz] at h; exact absurd h (by simp)
    · rw [if_neg hz] at h
      exact (Except.ok.inj h).symm

/-- Witness for C2 at total 1, idle 9/10: the reported percent is 10 and the
formula branch applies. -/
theorem c2_witness :
    (((9 : ℚ) / 10 < 1 / 1000000 → (10 : ℚ) = 100) ∧
      (¬ (9 : ℚ) / 10 < 1 / 1000000 → (10 : ℚ) = 100 * ((1 : ℚ) - 9 / 10) / 1)) :=
  c2_busy_percent_formula.1 1 (9 / 10) 10 (by with_unfolding_all decide)

/-- C10 counterexample: the claim says the assertion fails for any slot whose
printed stats contain two lines matching the total-line filter.  The line
"0 function calls in 0.000 seconds" matches the filter, yet a dump holding it
twice passes the assert both times, because the first occurrence assigns
total = 0.0: the slot processes without error, renders, and the run
continues past it. -/
theorem c10_counterexample :
    totalLineCond zeroTotalLine = true ∧
    processSlotLines [zeroTotalLine, zeroTotalLine] 0 0 = Except.ok (0, 0) ∧
    (analyze_cpu_usage [SlotFile.good [zeroTotalLine, zeroTotalLine], SlotFile.missing]).length = 1 := by
  with_unfolding_all decide

/-- C10 amended: in the per-line parser, the third conjunct of the total-line
filter is the constant nonempty string " seconds", so it is always true and
the total is taken from any line containing both " function calls " and
" in "; the parser asserts total == 0 before assigning, so when a second
matching line is reached while total holds a nonzero value the assertion
fails, and because the assertion error is caught by the handler wrapping the
whole loop, the timeline run ends at that slot instead of skipping it. -/
theorem c10_amended_total_line_filter_and_assert :
    (∀ line : String, totalLineCond line =
        (substrB line " function calls " && substrB line " in ")) ∧
    (∀ (line : String) (rest : List String) (total sleep : ℚ),
        totalLineCond line = true → total ≠ 0 →
        processSlotLines (line :: rest) total sleep = Except.error PyErr.assertionError) ∧
    (∀ (line : String) (rest : List String) (sleep t : ℚ),
        totalLineCond line = true →
        (pyIdxNeg2 (pySplitAll line.toList)).bind pyFloat = some t →
        processSlotLines (line :: rest) 0 sleep = processSlotLines rest t sleep) ∧
    (∀ (store : List SlotFile) (n : Nat),
        (∀ i, i < n → exOk (processSlot i (store.getD i SlotFile.missing)) = true) →
        processSlot n (store.getD n SlotFile.missing) = Except.error PyErr.assertionError →
        (analyze_cpu_usage store).length = n) := by
  refine ⟨?_, ?_, ?_, ?_⟩
  · intro line
    unfold totalLineCond pyTruthyStr
    simp
  · intro line rest total sleep hc hnz
    rw [processSlotLines, if_pos hc, if_neg hnz]
  · intro line rest sleep t hc hf
    rw [processSlotLines, if_pos hc, if_pos rfl]
    cases hi : pyIdxNeg2 (pySplitAll line.toList) with
    | none => rw [hi] at hf; simp [Option.bind] at hf
    | some tok =>
      rw [hi] at hf
      simp only [Option.some_bind] at hf
      dsimp only
      rw [hf]
  · intro store n hok hbad
    have h := analyzeFromSpec n store 0
      (by intro i hi; rw [Nat.zero_add]; exact hok i hi)
      (by rw [Nat.zero_add, hbad]; rfl)
    exact h.1

/-- Witness for the amended C10, on the pstats header line: the filter value
equals the two-membership test, a second header line seen with total 1031/1000
raises the assertion error, the first header line assigns total 1031/1000, and
the store whose slot 1 repeats the header line ends its run after slot 0. -/
theorem c10_amended_witness :
    totalLineCond totalLineSample =
      (substrB totalLineSample " function calls " && substrB totalLineSample " in ") ∧
    processSlotLines [totalLineSample] (1031 / 1000) 0 = Except.error PyErr.assertionError ∧
    processSlotLines [totalLineSample] 0 0 = processSlotLines [] (1031 / 1000) 0 ∧
    (analyze_cpu_usage assertStore).length = 1 :=
  ⟨c10_amended_total_line_filter_and_assert.1 totalLineSample,
   c10_amended_total_line_filter_and_assert.2.1 totalLineSample [] (1031 / 1000) 0
     (by with_unfolding_all decide) (by with_unfolding_all decide),
   c10_amended_total_line_filter_and_assert.2.2.1 totalLineSample [] 0 (1031 / 1000)
     (by with_unfolding_all decide) (by with_unfolding_all decide),
   c10_amended_total_line_filter_and_assert.2.2.2 assertStore 1
     (by with_unfolding_all decide) (by with_unfolding_all decide)⟩

/-- C5: with last < first, analyze_slot_range prints the validation message
and returns at line 180: nothing is written and neither subprocess of the
rendering pipeline is invoked; with first <= last it proceeds through the
normal effect sequence of lines 190 to 194. -/
theorem c5_range_validation (dir : String) (first last : Int) :
    (last < first →
      analyze_slot_range dir first last = [ExpEffect.printStr rangeErrMsg]) ∧
    (last < first →
      (∀ args, ExpEffect.runGprof2dot args ∉ analyze_slot_range dir first last) ∧
      (∀ f, ExpEffect.openWrite f ∉ analyze_slot_range dir first last) ∧
      (∀ args, ExpEffect.runDot args ∉ analyze_slot_range dir first last)) ∧
    (first ≤ last →
      analyze_slot_range dir first last =
        [ ExpEffect.printStr ("generating call tree for slot(s) [" ++ toString first ++
            ", " ++ toString last ++ "]"),
          ExpEffect.runGprof2dot (["gprof2dot", "-f", "pstats", "-o",
            outputFileName first last ++ ".dot"] ++ rangeFiles dir first last),
          ExpEffect.openWrite (outputFileName first last ++ ".png"),
          ExpEffect.runDot ["dot", "-T", "png", outputFileName first last ++ ".dot"],
          ExpEffect.printStr ("output written to: " ++ outputFileName first last ++ ".png") ]) := by
  refine ⟨?_, ?_, ?_⟩
  · intro h
    rw [analyze_slot_range, if_pos h]
  · intro h
    rw [analyze_slot_range, if_pos h]
    refine ⟨?_, ?_, ?_⟩ <;> intro a <;> simp
  · intro h
    rw [analyze_slot_range, if_neg (not_lt.mpr h)]

/-- Witness for C5: the range last 2, first 5 yields only the validation
message, and the range first 1, last 2 yields the normal pipeline. -/
theorem c5_witness :
    analyze_slot_range "profile" 5 2 = [ExpEffect.printStr rangeErrMsg] ∧
    (∀ args, ExpEffect.runGprof2dot args ∉ analyze_slot_range "profile" 5 2) ∧
    analyze_slot_range "profile" 1 2 =
      [ ExpEffect.printStr ("generating call tree for slot(s) [" ++ toString (1 : Int) ++
          ", " ++ toString (2 : Int) ++ "]"),
        ExpEffect.runGprof2dot (["gprof2dot", "-f", "pstats", "-o",
          outputFileName 1 2 ++ ".dot"] ++ rangeFiles "profile" 1 2),
        ExpEffect.openWrite (outputFileName 1 2 ++ ".png"),
        ExpEffect.runDot ["dot", "-T", "png", outputFileName 1 2 ++ ".dot"],
        ExpEffect.printStr ("output written to: " ++ outputFileName 1 2 ++ ".png") ] :=
  ⟨(c5_range_validation "profile" 5 2).1 (by decide),
   ((c5_range_validation "profile" 5 2).2.1 (by decide)).1,
   (c5_range_validation "profile" 1 2).2.2 (by decide)⟩

theorem profileTaskLoop_replicate : ∀ (N : Nat) (c : Nat),
    profileTaskLoop (List.replicate N IterOutcome.normal) c =
      ((List.range' c N).map (fun i => slotFileName (Int.ofNat i)), TaskEnd.looping) := by
  intro N
  induction N with
  | zero => intro c; rfl
  | succ N ih =>
    intro c
    show (slotFileName (Int.ofNat c) :: (profileTaskLoop (List.replicate N IterOutcome.normal) (c + 1)).1,
        (profileTaskLoop (List.replicate N IterOutcome.normal) (c + 1)).2) = _
    rw [ih (c + 1)]
    rfl

theorem profileTaskLoop_writes_range : ∀ (outcomes : List IterOutcome) (c : Nat),
    (profileTaskLoop outcomes c).1 =
      (List.range' c (profileTaskLoop outcomes c).1.length).map
        (fun i => slotFileName (Int.ofNat i)) := by
  intro outcomes
  induction outcomes with
  | nil => intro c; rfl
  | cons o rest ih =>
    intro c
    cases o with
    | cancelled => rfl
    | writeFail => rfl
    | normal =>
      have hlen : (profileTaskLoop (IterOutcome.normal :: rest) c).1.length
          = (profileTaskLoop rest (c + 1)).1.length + 1 := rfl
      show slotFileName (Int.ofNat c) :: (profileTaskLoop rest (c + 1)).1 = _
      rw [hlen, List.range'_succ, List.map_cons]
      congr 1
      exact ih (c + 1)

theorem profileTaskLoop_normal_prefix : ∀ (pre post : List IterOutcome) (c : Nat),
    (∀ o ∈ pre, o = IterOutcome.normal) →
    profileTaskLoop (pre ++ IterOutcome.writeFail :: post) c =
      ((List.range' c pre.length).map (fun i => slotFileName (Int.ofNat i)), TaskEnd.errored) := by
  intro pre
  induction pre with
  | nil => intro post c _; rfl
  | cons o rest ih =>
    intro post c hpre
    have ho : o = IterOutcome.normal := hpre o (List.mem_cons_self o rest)
    subst ho
    show (slotFileName (Int.ofNat c) :: (profileTaskLoop (rest ++ IterOutcome.writeFail :: post) (c + 1)).1,
        (profileTaskLoop (rest ++ IterOutcome.writeFail :: post) (c + 1)).2) = _
    rw [ih post (c + 1) (fun o ho => hpre o (List.mem_cons_of_mem _ ho))]
    rfl

/-- C7 counterexample: with iteration outcomes normal, write failure, normal,
the sampler writes only slot-00000 and the task ends with the propagated
exception: the iteration after the failed write never runs, because
dump_stats at line 39 is not guarded by any handler. -/
theorem c7_counterexample :
    profile_task [IterOutcome.normal, IterOutcome.writeFail, IterOutcome.normal] =
      (["slot-00000.profile"], TaskEnd.errored) := by
  with_unfolding_all decide

/-- C7 amended: if persisting one snapshot fails during a sampler iteration,
the exception propagates out of the unguarded loop body and terminates the
sampling task: exactly the snapshots of the iterations before the failure are
written, and no later iteration runs. -/
theorem c7_amended_write_failure_ends_task (pre post : List IterOutcome)
    (hpre : ∀ o ∈ pre, o = IterOutcome.normal) :
    profile_task (pre ++ IterOutcome.writeFail :: post) =
      ((List.range pre.length).map (fun i => slotFileName (Int.ofNat i)), TaskEnd.errored) := by
  rw [List.range_eq_range']
  exact profileTaskLoop_normal_prefix pre post 0 hpre

/-- Witness for the amended C7: one good iteration, then a failed write, then
an iteration that never runs. -/
theorem c7_amended_witness :
    profile_task ([IterOutcome.normal] ++ IterOutcome.writeFail :: [IterOutcome.normal]) =
      ((List.range [IterOutcome.normal].length).map (fun i => slotFileName (Int.ofNat i)),
        TaskEnd.errored) :=
  c7_amended_write_failure_ends_task [IterOutcome.normal] [IterOutcome.normal]
    (by intro o ho; simpa using ho)

/-- C8: the sampler names snapshots slot-%05d starting at counter 0 and
incrementing by exactly one per completed iteration, so a run of N completed
iterations writes the zero padded names of 0 to N - 1 in order, and whatever
the iteration outcomes are, the files written are exactly the consecutive
names from 0 with none skipped or reused. -/
theorem c8_sequential_slot_numbers :
    (∀ N : Nat, profile_task (List.replicate N IterOutcome.normal) =
        ((List.range N).map (fun i => slotFileName (Int.ofNat i)), TaskEnd.looping)) ∧
    (∀ outcomes : List IterOutcome, (profile_task outcomes).1 =
        (List.range (profile_task outcomes).1.length).map (fun i => slotFileName (Int.ofNat i))) ∧
    slotFileName 0 = "slot-00000.profile" ∧
    slotFileName 1 = "slot-00001.profile" := by
  refine ⟨?_, ?_, by with_unfolding_all decide, by with_unfolding_all decide⟩
  · intro N
    rw [List.range_eq_range']
    exact profileTaskLoop_replicate N 0
  · intro outcomes
    rw [List.range_eq_range']
    exact profileTaskLoop_writes_range outcomes 0

theorem releasesFrom_entry : ∀ (L : List (ℚ × ℚ)) (tbl : ProfileTable) (k : String)
    (c : Nat) (cw ch : ℚ), tbl k = some (c, cw, ch) →
    releasesFrom tbl k L k =
      some (c + L.length, cw + (L.map Prod.fst).sum, ch + (L.map Prod.snd).sum) := by
  intro L
  induction L with
  | nil =>
    intro tbl k c cw ch htbl
    simp [releasesFrom, htbl]
  | cons wh L ih =>
    intro tbl k c cw ch htbl
    obtain ⟨w, hd⟩ := wh
    show releasesFrom (profileUpdate tbl k w hd) k L k = _
    have hup : profileUpdate tbl k w hd k = some (c + 1, cw + w, ch + hd) := by
      unfold profileUpdate
      rw [if_pos rfl, htbl]
      rfl
    rw [ih _ k (c + 1) (cw + w) (ch + hd) hup]
    simp only [List.map_cons, List.sum_cons, List.length_cons, Option.some.injEq,
      Prod.mk.injEq]
    refine ⟨by omega, by ring, by ring⟩

/-- C1: a release from call site k with recorded wait w and hold h creates the
entry (1, w, h) when the table has none for k, and turns (c, cw, ch) into
(c + 1, cw + w, ch + h) otherwise; the table __aexit__ leaves behind is exactly
this update; a run of N releases from the same fresh call site leaves count N
and the exact sums of the recorded durations; counts stay at least 1 once an
entry exists, and with nonnegative durations no field ever decreases. -/
theorem c1_lockstat_aggregation :
    (∀ (tbl : ProfileTable) (k : String) (w h : ℚ), tbl k = none →
        profileUpdate tbl k w h k = some (1, w, h)) ∧
    (∀ (tbl : ProfileTable) (k : String) (w h : ℚ) (c : Nat) (cw ch : ℚ),
        tbl k = some (c, cw, ch) →
        profileUpdate tbl k w h k = some (c + 1, cw + w, ch + h)) ∧
    (∀ (lk : InstrumentedLock) (rt lock_time wait : ℚ) (holder : String)
        (st : InstrumentedLock) (ws : List Warning),
        lk.current_lock_time = some lock_time → lk.current_wait_time = some wait →
        lk.current_holder = some holder →
        aexitBook lk rt = Except.ok (st, ws) →
        st.profile = profileUpdate lk.profile holder wait (rt - lock_time)) ∧
    (∀ (tbl : ProfileTable) (k : String) (w h : ℚ) (L : List (ℚ × ℚ)), tbl k = none →
        releasesFrom tbl k ((w, h) :: L) k =
          some (L.length + 1, w + (L.map Prod.fst).sum, h + (L.map Prod.snd).sum)) ∧
    (∀ (tbl : ProfileTable) (k : String) (w h : ℚ) (k2 : String) (e : Nat × ℚ × ℚ),
        (∀ k3 e3, tbl k3 = some e3 → 1 ≤ e3.1) →
        profileUpdate tbl k w h k2 = some e → 1 ≤ e.1) ∧
    (∀ (tbl : ProfileTable) (k : String) (w h : ℚ) (k2 : String)
        (c : Nat) (cw ch : ℚ) (c2 : Nat) (cw2 ch2 : ℚ), 0 ≤ w → 0 ≤ h →
        tbl k2 = some (c, cw, ch) →
        profileUpdate tbl k w h k2 = some (c2, cw2, ch2) →
        c ≤ c2 ∧ cw ≤ cw2 ∧ ch ≤ ch2) := by
  refine ⟨?_, ?_, ?_, ?_, ?_, ?_⟩
  · intro tbl k w h htbl
    simp [profileUpdate, htbl]
  · intro tbl k w h c cw ch htbl
    simp [profileUpdate, htbl]
  · intro lk rt lock_time wait holder st ws h1 h2 h3 h4
    unfold aexitBook at h4
    rw [h1, h2, h3] at h4
    dsimp only at h4
    rw [Except.ok.injEq, Prod.mk.injEq] at h4
    rw [← h4.1]
  · intro tbl k w h L htbl
    have hup : profileUpdate tbl k w h k = some (1, w, h) := by
      simp [profileUpdate, htbl]
    show releasesFrom (profileUpdate tbl k w h) k L k = _
    have hc : (1 : Nat) + L.length = L.length + 1 := by omega
    rw [releasesFrom_entry L _ k 1 w h hup, hc]
  · intro tbl k w h k2 e hmin hup
    unfold profileUpdate at hup
    by_cases hk : k2 = k
    · rw [if_pos hk] at hup
      have he := (Option.some.inj hup).symm
      rw [he]
      exact Nat.le_add_left 1 _
    · rw [if_neg hk] at hup
      exact hmin k2 e hup
  · intro tbl k w h k2 c cw ch c2 cw2 ch2 hw hh htbl hup
    by_cases hk : k2 = k
    · rw [hk] at htbl
      simp only [profileUpdate, if_pos hk, htbl, Option.getD_some, Option.some.injEq,
        Prod.mk.injEq] at hup
      obtain ⟨e1, e2, e3⟩ := hup
      refine ⟨by omega, by linarith [e2], by linarith [e3]⟩
    · simp only [profileUpdate, if_neg hk] at hup
      rw [htbl] at hup
      rw [Option.some.injEq, Prod.mk.injEq, Prod.mk.injEq] at hup
      obtain ⟨e1, e2, e3⟩ := hup
      exact ⟨by omega, le_of_eq e2, le_of_eq e3⟩

/-- Witness for C1: a fresh entry, an increment of (3, 10, 20) by (2, 3), the
table produced by __aexit__ from the state of lkSample, two releases from a
fresh call site summing to (2, 2 + 4, 3 + 5), a count bound, and the
monotonicity of the incremented entry. -/
theorem c1_witness :
    profileUpdate (fun _ => none) "site" 2 3 "site" = some (1, 2, 3) ∧
    profileUpdate sampleTbl "site" 2 3 "site" = some (3 + 1, 10 + 2, 20 + 3) ∧
    lkSampleExit.profile = profileUpdate lkSample.profile "site" 1 ((12 : ℚ) - 10) ∧
    releasesFrom (fun _ => none) "site" ((2, 3) :: [((4 : ℚ), (5 : ℚ))]) "site" =
      some ([((4 : ℚ), (5 : ℚ))].length + 1,
        2 + ([((4 : ℚ), (5 : ℚ))].map Prod.fst).sum,
        3 + ([((4 : ℚ), (5 : ℚ))].map Prod.snd).sum) ∧
    1 ≤ ((1 : Nat), (2 : ℚ), (3 : ℚ)).1 ∧
    (3 ≤ 3 + 1 ∧ (10 : ℚ) ≤ 10 + 2 ∧ (20 : ℚ) ≤ 20 + 3) :=
  ⟨c1_lockstat_aggregation.1 (fun _ => none) "site" 2 3 rfl,
   c1_lockstat_aggregation.2.1 sampleTbl "site" 2 3 3 10 20 (by with_unfolding_all decide),
   c1_lockstat_aggregation.2.2.1 lkSample 12 10 1 "site" lkSampleExit [] rfl rfl rfl
     (by with_unfolding_all rfl),
   c1_lockstat_aggregation.2.2.2.1 (fun _ => none) "site" 2 3 [((4 : ℚ), (5 : ℚ))] rfl,
   c1_lockstat_aggregation.2.2.2.2.1 (fun _ => none) "site" 2 3 "site" (1, 2, 3)
     (fun _ _ hh => Option.noConfusion hh) (by with_unfolding_all decide),
   c1_lockstat_aggregation.2.2.2.2.2 sampleTbl "site" 2 3 "site" 3 10 20 (3 + 1) (10 + 2) (20 + 3)
     (by with_unfolding_all decide) (by with_unfolding_all decide)
     (by with_unfolding_all decide) (by with_unfolding_all decide)⟩

/-- C4: on acquisition, exactly one warning is logged when the measured wait
strictly exceeds 1 second and none otherwise, a wait of exactly 1 second
included; on release, exactly one warning when the hold strictly exceeds 2
seconds; the warnings are advisory: the state __aenter__ stores and the table
update and cleared state __aexit__ leaves are the same expressions of the
inputs whether or not a warning was logged. -/
theorem c4_threshold_warnings :
    (∀ (lk : InstrumentedLock) (t0 t1 : ℚ) (stack : String),
        (aenterBook lk t0 t1 stack).2.length = (if t1 - t0 > 1 then 1 else 0)) ∧
    (∀ (lk : InstrumentedLock) (t0 t1 : ℚ) (stack : String),
        (aenterBook lk t0 t1 stack).1 =
          ⟨lk.name, some (t1 - t0), some t1, some stack, lk.profile⟩) ∧
    (∀ (lk : InstrumentedLock) (t0 : ℚ) (stack : String),
        (aenterBook lk t0 (t0 + 1) stack).2 = []) ∧
    (∀ (lk : InstrumentedLock) (rt lock_time wait : ℚ) (holder : String)
        (st : InstrumentedLock) (ws : List Warning),
        lk.current_lock_time = some lock_time → lk.current_wait_time = some wait →
        lk.current_holder = some holder →
        aexitBook lk rt = Except.ok (st, ws) →
        ws.length = (if rt - lock_time > 2 then 1 else 0) ∧
        st = ⟨lk.name, none, none, none,
          profileUpdate lk.profile holder wait (rt - lock_time)⟩) := by
  refine ⟨?_, ?_, ?_, ?_⟩
  · intro lk t0 t1 stack
    by_cases hgt : t1 - t0 > 1
    · simp [aenterBook, hgt]
    · simp [aenterBook, hgt]
  · intro lk t0 t1 stack
    rfl
  · intro lk t0 stack
    have he : t0 + 1 - t0 = 1 := by ring
    simp [aenterBook, he]
  · intro lk rt lock_time wait holder st ws h1 h2 h3 h4
    unfold aexitBook at h4
    rw [h1, h2, h3] at h4
    dsimp only at h4
    rw [Except.ok.injEq, Prod.mk.injEq] at h4
    obtain ⟨hst, hws⟩ := h4
    refine ⟨?_, hst.symm⟩
    rw [← hws]
    by_cases hh : rt - lock_time > 2
    · rw [if_pos hh, if_pos hh]; rfl
    · rw [if_neg hh, if_neg hh]; rfl

/-- Witness for C4: a wait of 3 over threshold 1 logs one warning, the stored
state is independent of it, a wait of exactly 1 logs none, and the release of
lkSample at clock 12 after locking at 10 holds for exactly 2 and logs none
while still updating the table. -/
theorem c4_witness :
    (aenterBook (initLock "L") 0 3 "site").2.length = (if (3 : ℚ) - 0 > 1 then 1 else 0) ∧
    (aenterBook (initLock "L") 0 3 "site").1 =
      ⟨(initLock "L").name, some ((3 : ℚ) - 0), some 3, some "site", (initLock "L").profile⟩ ∧
    (aenterBook (initLock "L") 0 (0 + 1) "site").2 = [] ∧
    ([] : List Warning).length = (if (12 : ℚ) - 10 > 2 then 1 else 0) ∧
    lkSampleExit = ⟨lkSample.name, none, none, none,
      profileUpdate lkSample.profile "site" 1 ((12 : ℚ) - 10)⟩ :=
  ⟨c4_threshold_warnings.1 (initLock "L") 0 3 "site",
   c4_threshold_warnings.2.1 (initLock "L") 0 3 "site",
   c4_threshold_warnings.2.2.1 (initLock "L") 0 "site",
   (c4_threshold_warnings.2.2.2 lkSample 12 10 1 "site" lkSampleExit [] rfl rfl rfl
      (by with_unfolding_all rfl)).1,
   (c4_threshold_warnings.2.2.2 lkSample 12 10 1 "site" lkSampleExit [] rfl rfl rfl
      (by with_unfolding_all rfl)).2⟩

theorem reach_ownerInv {n : Nat} {name : String} {s : SysState n}
    (h : Reach name s) : ownerInv s := by
  induction h with
  | init =>
    intro t ht
    simp [initState] at ht
  | step hr hs ih =>
    cases hs with
    | callAenter t hidle =>
      intro t2 ht2
      dsimp only at ht2 ⊢
      rw [Function.update_apply] at ht2
      by_cases he : t2 = t
      · rw [if_pos he] at ht2
        exact absurd ht2 (by simp)
      · rw [if_neg he] at ht2
        exact ih t2 ht2
    | grant t start_wait t1 stack hw ho =>
      intro t2 ht2
      dsimp only at ht2 ⊢
      rw [Function.update_apply] at ht2
      by_cases he : t2 = t
      · rw [he]
      · rw [if_neg he] at ht2
        have hcontra := ih t2 ht2
        rw [ho] at hcontra
        exact absurd hcontra (by simp)
    | exitCrit t rt st ws hc hex =>
      intro t2 ht2
      dsimp only at ht2 ⊢
      rw [Function.update_apply] at ht2
      by_cases he : t2 = t
      · rw [if_pos he] at ht2
        exact absurd ht2 (by simp)
      · rw [if_neg he] at ht2
        have h1 := ih t2 ht2
        have h2 := ih t hc
        rw [h2] at h1
        exact absurd (Option.some.inj h1).symm he

/-- C9: in every state reachable by interleaving __aenter__ and __aexit__
slices of any number of tasks on one InstrumentedLock, at most one task is
inside the critical section: the instrumentation only enters after the
underlying asyncio.Lock grant and only releases it in __aexit__, so the
mutual exclusion of the wrapped primitive is preserved, and a task blocks in
__aenter__ exactly while the underlying lock is held by another task. -/
theorem c9_mutual_exclusion {n : Nat} {name : String} {s : SysState n}
    (h : Reach name s) (t1 t2 : Fin n)
    (h1 : s.phase t1 = Phase.critical) (h2 : s.phase t2 = Phase.critical) :
    t1 = t2 := by
  have hinv := reach_ownerInv h
  have e1 := hinv t1 h1
  have e2 := hinv t2 h2
  rw [e1] at e2
  exact Option.some.inj e2

/-- Witness for C9: a concrete reachable two task state with task 0 critical;
the theorem applied there identifies any two critical tasks. -/
theorem c9_witness :
    s2Sample.phase 0 = Phase.critical ∧ (0 : Fin 2) = (0 : Fin 2) := by
  have hreach : Reach "L" s2Sample :=
    Reach.step (Reach.step Reach.init (Step.callAenter s0Sample 0 (by decide)))
      (Step.grant s1Sample 0 0 0 "site" (by decide) rfl)
  exact ⟨by decide, c9_mutual_exclusion hreach 0 0 (by decide) (by decide)⟩
